/-
Verification development for the reels_scrap_api repository.

Shallow embedding of the Python sources:
  - cache_manager.py : TTL cache (CacheEntry, InMemoryCache)
  - main.py          : proxy pool (get_next_proxy, remove_bad_proxy),
                       rate-limit signature check, scrape_instagram_reel loop
  - scraper.py       : status classification, smart scroll, extraction
                       pipeline, GraphQL / shared-data / DOM parsing

Modelling conventions:
  - wall-clock time (Python time.time, a float) is modelled as Rat and passed
    explicitly as a `now` argument;
  - Python dicts keyed by strings are modelled as association lists whose
    keys are unique in every reachable state;
  - network and browser effects are modelled as explicit oracle arguments;
  - Python string membership (`sub in s`) is modelled by an executable
    substring search on the character lists underlying String.
-/

import Mathlib

set_option linter.unusedVariables false

/-! # String helpers (model of Python `in`, `str.lower`, `str.split`) -/

/-- Bool test: the first list is a leading segment of the second. -/
def isPre : List Char → List Char → Bool
  | [], _ => true
  | _ :: _, [] => false
  | p :: ps, c :: cs => p == c && isPre ps cs

/-- Bool test: `pat` occurs as a contiguous segment of the second list. -/
def occursIn (pat : List Char) : List Char → Bool
  | [] => pat.isEmpty
  | c :: rest => isPre pat (c :: rest) || occursIn pat rest

/-- Model of Python `sub in s` for strings. -/
def containsSub (s sub : String) : Bool := occursIn sub.data s.data

/-- ASCII lower-casing of one character (model of Python `str.lower` on the
ASCII error messages the source compares against). -/
def charLower (c : Char) : Char :=
  if 'A' ≤ c ∧ c ≤ 'Z' then Char.ofNat (c.toNat + 32) else c

/-- Model of Python `str.lower`. -/
def lowerStr (s : String) : String := String.mk (s.data.map charLower)

/-- Model of Python `str.split(sep)` for a one-character separator: empty
pieces are kept, exactly as in Python. -/
def splitOnChar (sep : Char) : List Char → List (List Char)
  | [] => [[]]
  | c :: rest =>
    let r := splitOnChar sep rest
    if c == sep then [] :: r
    else
      match r with
      | [] => [[c]]
      | h :: t => (c :: h) :: t

/-! # cache_manager.py : CacheEntry and InMemoryCache -/

/-- cache_manager.py, class CacheEntry: `data`, `created_at` (time.time at
construction), `ttl_seconds` (an int). -/
structure CacheEntry (α : Type) where
  data : α
  created_at : Rat
  ttl_seconds : Int
deriving DecidableEq

/-- cache_manager.py, CacheEntry.is_expired:
`(time.time() - self.created_at) > self.ttl_seconds`. -/
def CacheEntry.isExpired (e : CacheEntry α) (now : Rat) : Bool :=
  decide ((e.ttl_seconds : Rat) < now - e.created_at)

/-- The entries of an InMemoryCache (`self.cache`, a dict).  Keys are unique
in every reachable state; the operations below mirror the dict operations
under that invariant. -/
abbrev CacheMap (α : Type) := List (String × CacheEntry α)

/-- cache_manager.py, InMemoryCache.get: return the unexpired value, purge
an expired entry (returning none), miss on an absent key.  The second
component is the cache after the call. -/
def cacheGet (c : CacheMap α) (now : Rat) (key : String) :
    Option α × CacheMap α :=
  match c.find? (fun p => p.1 == key) with
  | none => (none, c)
  | some (_, e) =>
    if e.isExpired now then (none, c.filter (fun p => !(p.1 == key)))
    else (some e.data, c)

/-- cache_manager.py, InMemoryCache.set: overwrite the key with a fresh
entry; `ttl_seconds=None` falls back to the default TTL. -/
def cacheSet (c : CacheMap α) (key : String) (data : α)
    (ttl_seconds : Option Int) (defaultTtl : Int) (now : Rat) : CacheMap α :=
  (key, ⟨data, now, ttl_seconds.getD defaultTtl⟩) ::
    c.filter (fun p => !(p.1 == key))

/-- cache_manager.py, InMemoryCache.delete: True iff the key was present;
no expiry check is made. -/
def cacheDelete (c : CacheMap α) (key : String) : Bool × CacheMap α :=
  if c.any (fun p => p.1 == key) then
    (true, c.filter (fun p => !(p.1 == key)))
  else (false, c)

/-- cache_manager.py, InMemoryCache.get_stats result shape. -/
structure CacheStats where
  total_entries : Nat
  expired_entries : Nat
  active_entries : Nat
  default_ttl : Int
deriving DecidableEq

/-- cache_manager.py, InMemoryCache.get_stats: counts every stored entry,
expired ones included. -/
def cacheStats (c : CacheMap α) (now : Rat) (defaultTtl : Int) : CacheStats :=
  let total := c.length
  let expired := c.countP (fun p => p.2.isExpired now)
  ⟨total, expired, total - expired, defaultTtl⟩

/-- cache_manager.py, InMemoryCache.cleanup_expired: drop every expired
entry, returning the new cache and the number removed. -/
def cleanupExpired (c : CacheMap α) (now : Rat) : CacheMap α × Nat :=
  let expiredKeys := (c.filter (fun p => p.2.isExpired now)).map (·.1)
  (c.filter (fun p => !(p.2.isExpired now)), expiredKeys.length)

/-! # main.py : proxy pool (get_next_proxy / remove_bad_proxy) -/

/-- main.py, get_next_proxy.  The pool and `_last_proxy` slot are passed
explicitly; `random.choice(candidates)` is modelled by selecting index
`k % candidates.length` for an arbitrary `k`, so every theorem below holds
for every choice the random generator can make.  Returns the selected proxy
(or none on an empty pool) together with the updated `_last_proxy`. -/
def getNextProxy (pool : List String) (last : Option String) (k : Nat) :
    Option String × Option String :=
  let cand0 := pool.filter (fun q => decide (some q ≠ last))
  let cand := if cand0.isEmpty then pool else cand0
  if cand.isEmpty then (none, last)
  else
    let proxy := cand.getD (k % cand.length) ""
    (some proxy, some proxy)

/-- main.py, remove_bad_proxy: remove the proxy from the pool if present
(Python list.remove drops the first occurrence) and clear `_last_proxy`
when it pointed at the removed proxy. -/
def removeBadProxy (pool : List String) (last : Option String) (p : String) :
    List String × Option String :=
  if p ∈ pool then
    (pool.erase p, if last = some p then none else last)
  else (pool, last)

/-- One observable operation on the shared proxy pool state. -/
inductive PoolOp where
  | next (k : Nat)
  | evict (p : String)

/-- The shared proxy pool state: the mutable pool list and `_last_proxy`. -/
structure PoolState where
  pool : List String
  lastUsed : Option String

/-- Apply one pool operation; the second component is the proxy returned by
a `next` call (none for `evict`). -/
def stepPool (s : PoolState) : PoolOp → PoolState × Option String
  | .next k =>
    (⟨s.pool, (getNextProxy s.pool s.lastUsed k).2⟩,
      (getNextProxy s.pool s.lastUsed k).1)
  | .evict p =>
    (⟨(removeBadProxy s.pool s.lastUsed p).1,
      (removeBadProxy s.pool s.lastUsed p).2⟩, none)

/-- Apply a sequence of pool operations, collecting the outputs of the
`next` calls in order. -/
def runPool (s : PoolState) : List PoolOp → PoolState × List (Option String)
  | [] => (s, [])
  | op :: ops =>
    ((runPool (stepPool s op).1 ops).1,
      (stepPool s op).2 :: (runPool (stepPool s op).1 ops).2)

/-! # main.py : rate-limit signatures and the scrape_instagram_reel loop -/

/-- main.py, scrape_instagram_reel, the error classification inside the
except block: 401 Unauthorized / "Please wait a few minutes before you try
again" / "429" / "rate limit" (case-insensitively). -/
def isRateLimitError (msg : String) : Bool :=
  containsSub msg "401 Unauthorized" ||
  containsSub msg "Please wait a few minutes before you try again" ||
  containsSub msg "429" ||
  containsSub (lowerStr msg) "rate limit"

/-- The reel record produced by both acquisition paths (main.py ReelData /
the scraper.py reel dicts).  Timestamps are modelled by their integer value;
the ISO rendering of a timestamp is abstracted away. -/
structure Reel where
  id : String
  reel_url : String
  video_url : Option String
  thumbnail_url : Option String
  caption : Option String
  posted_at : Int
  views : Option Int
  likes : Option Int
  comments : Option Int
deriving DecidableEq

/-- main.py, scrape_instagram_reel: shortcode resolution from the URL path.
`parts = [p for p in parsed.path.split("/") if p]; shortcode = parts[-1]`.
Returns none when no non-empty segment exists (the ValueError path). -/
def extractShortcode (path : String) : Option String :=
  let parts := ((splitOnChar '/' path.data).map String.mk).filter (· ≠ "")
  parts.getLast?

/-- One pass of the `for proxy in pool` loop of scrape_instagram_reel.
Arguments: the network oracle (one instaloader fetch through the given
proxy), the iteration snapshot (`pool[:]`), the live pool, `proxies_tried`,
and the log of proxies actually attempted, in order.  On any failure the
proxy is evicted via remove_bad_proxy; the source then tests the rate-limit
signatures but both branches `continue`, which the definition mirrors.
Returns (result, live pool, proxies_tried, attempted log). -/
def tryProxies (oracle : String → Except String Reel) :
    List String → List String → List String → List String →
    Option Reel × List String × List String × List String
  | [], pool, tried, att => (none, pool, tried, att)
  | p :: rest, pool, tried, att =>
    if p ∈ tried then tryProxies oracle rest pool tried att
    else
      let tried1 := p :: tried
      let att1 := att ++ [p]
      match oracle p with
      | .ok r => (some r, pool, tried1, att1)
      | .error msg =>
        let pool1 := (removeBadProxy pool none p).1
        if isRateLimitError msg then tryProxies oracle rest pool1 tried1 att1
        else tryProxies oracle rest pool1 tried1 att1

/-- Outcome of the scrape_instagram_reel proxy loop: a reel, the HTTP 429
pool-exhausted failure, or fuel exhaustion (standing for the unbounded
`while True` spinning further). -/
inductive ScrapeOutcome where
  | ok (r : Reel)
  | http429
  | outOfFuel
deriving DecidableEq

/-- main.py, scrape_instagram_reel, the `while True` loop: snapshot the
pool, run a full pass over it, and, when no proxy succeeded, cool down and
raise HTTP 429 once the pool is empty, otherwise loop.  `fuel` bounds the
number of passes; the source loop is unbounded.  Also returns the attempted
proxy log. -/
def scrapeLoop (oracle : String → Except String Reel) :
    Nat → List String → List String → List String →
    ScrapeOutcome × List String
  | 0, _, _, att => (.outOfFuel, att)
  | fuel + 1, pool, tried, att =>
    if pool.isEmpty then (.http429, att)
    else
      match tryProxies oracle pool pool tried att with
      | (some r, _, _, att1) => (.ok r, att1)
      | (none, pool1, tried1, att1) =>
        if pool1.isEmpty then (.http429, att1)
        else scrapeLoop oracle fuel pool1 tried1 att1

/-- main.py, scrape_instagram_reel entry: the loop starts with an empty
`proxies_tried` set and an empty attempt log. -/
def scrapeInstagramReel (oracle : String → Except String Reel)
    (fuel : Nat) (pool : List String) : ScrapeOutcome × List String :=
  scrapeLoop oracle fuel pool [] []

/-! # scraper.py : data shapes of the GraphQL / shared-data payloads -/

/-- One media node of a GraphQL timeline edge (scraper.py reads these keys
with dict.get, so every field is optional; an edge whose "node" key is
absent behaves like a node with every field absent). -/
structure MediaNode where
  shortcode : Option String
  is_video : Bool
  video_url : Option String
  thumbnail_src : Option String
  display_url : Option String
  taken_at_timestamp : Option Int
  caption_texts : List (Option String)
  likes_count : Option Int
  comments_count : Option Int
  video_view_count : Option Int
deriving DecidableEq

/-- The "edge_owner_to_timeline_media" object: its list of edges. -/
structure TimelineMedia where
  edges : List MediaNode
deriving DecidableEq

/-- A GraphQL "user" object; the timeline key may be absent. -/
structure GraphqlUser where
  timeline : Option TimelineMedia
deriving DecidableEq

/-- A GraphQL "data" object; the user key may be absent. -/
structure GraphqlData where
  user : Option GraphqlUser
deriving DecidableEq

/-- One intercepted GraphQL response; the data key may be absent. -/
structure GraphqlResponse where
  data : Option GraphqlData
deriving DecidableEq

/-- One entry of window._sharedData entry_data.ProfilePage; the
graphql/user chain may be absent (dict.get defaults collapse to none). -/
structure ProfilePage where
  user : Option GraphqlUser
deriving DecidableEq

/-- window._sharedData: entry_data may lack the ProfilePage key. -/
structure SharedData where
  profilePages : Option (List ProfilePage)
deriving DecidableEq

/-- Model of Python `a or b` on optional strings: an absent or empty left
operand falls through to the right operand. -/
def pyOrStr : Option String → Option String → Option String
  | some "", b => b
  | none, b => b
  | some s, _ => some s

/-- scraper.py, InstagramScraper._parse_media_node.  A node with an absent
or empty shortcode is dropped (`if not shortcode: return None`); an absent
or zero timestamp falls back to the current time (`if timestamp` is falsy
on 0); the thumbnail is `thumbnail_src or display_url`; the caption is the
text of the first caption edge when present. -/
def parseMediaNode (now : Int) (node : MediaNode) : Option Reel :=
  match node.shortcode with
  | none => none
  | some sc =>
    if sc = "" then none
    else
      some
        { id := sc
          reel_url := "https://www.instagram.com/reel/" ++ sc ++ "/"
          video_url := node.video_url
          thumbnail_url := pyOrStr node.thumbnail_src node.display_url
          caption := node.caption_texts.head?.bind id
          posted_at :=
            match node.taken_at_timestamp with
            | some t => if t = 0 then now else t
            | none => now
          views := node.video_view_count
          likes := node.likes_count
          comments := node.comments_count }

/-- scraper.py, InstagramScraper._parse_graphql_data: walk every response
through data → user → edge_owner_to_timeline_media → edges, keep the
`is_video` nodes, convert each via _parse_media_node, and skip nodes the
conversion drops. -/
def parseGraphqlData (now : Int) (responses : List GraphqlResponse) :
    List Reel :=
  responses.flatMap (fun resp =>
    match resp.data with
    | none => []
    | some d =>
      match d.user with
      | none => []
      | some u =>
        match u.timeline with
        | none => []
        | some tl =>
          tl.edges.filterMap (fun n =>
            if n.is_video then parseMediaNode now n else none))

/-- scraper.py, InstagramScraper._parse_shared_data: read
entry_data.ProfilePage[0].graphql.user.edge_owner_to_timeline_media.edges;
an absent ProfilePage key, an empty ProfilePage list (the IndexError is
swallowed by the surrounding except), or an absent user/timeline all yield
the empty result. -/
def parseSharedData (now : Int) (sd : SharedData) : List Reel :=
  match sd.profilePages with
  | none => []
  | some [] => []
  | some (pp :: _) =>
    match pp.user with
    | none => []
    | some u =>
      match u.timeline with
      | none => []
      | some tl =>
        tl.edges.filterMap (fun n =>
          if n.is_video then parseMediaNode now n else none)

/-- The portion of a link after the first occurrence of `pat`, when `pat`
occurs. -/
def afterFirst (pat : List Char) : List Char → Option (List Char)
  | [] => if pat.isEmpty then some [] else none
  | c :: rest =>
    if isPre pat (c :: rest) then some (List.drop pat.length (c :: rest))
    else afterFirst pat rest

/-- scraper.py, _scrape_reels_from_dom: shortcode capture of the pattern
/reel/([^/]+) — the segment after the first "/reel/" up to the next slash,
required non-empty. -/
def extractReelLinkShortcode (link : String) : Option String :=
  match afterFirst "/reel/".data link.data with
  | none => none
  | some rest =>
    let sc := rest.takeWhile (fun c => c ≠ '/')
    if sc.isEmpty then none else some (String.mk sc)

/-- scraper.py, InstagramScraper._scrape_reels_from_dom: deduplicate the
collected reel links (Python builds `list(set(...))`, whose order is
unspecified; first-occurrence order is used here) and emit a minimal reel
per link with a parsable shortcode. -/
def scrapeReelsFromDom (now : Int) (links : List String) : List Reel :=
  links.eraseDups.filterMap (fun link =>
    match extractReelLinkShortcode link with
    | none => none
    | some sc =>
      some
        { id := sc
          reel_url := "https://www.instagram.com/reel/" ++ sc ++ "/"
          video_url := none
          thumbnail_url :=
            some ("https://www.instagram.com/p/" ++ sc ++ "/media/?size=l")
          caption := none
          posted_at := now
          views := none
          likes := none
          comments := none })

/-! # scraper.py : page model, classification, extraction, scrolling -/

/-- The loaded profile page as the scraper observes it: whether the
not-found / private text markers match, the final navigated URL, the
window._sharedData blob, and the reel anchors present in the DOM. -/
structure Page where
  notFoundMarker : Bool
  privateMarker : Bool
  url : String
  sharedData : Option SharedData
  domReelLinks : List String

-- scraper.py, class ScraperStatus: plain string constants.
namespace ScraperStatus

def SUCCESS : String := "SUCCESS"

def PRIVATE : String := "PRIVATE"

def NOT_FOUND : String := "NOT_FOUND"

def ERROR : String := "ERROR"

def RATE_LIMITED : String := "RATE_LIMITED"

end ScraperStatus

/-- scraper.py, InstagramScraper._check_account_status: not-found markers
first, then private markers, then a challenge/login URL, else SUCCESS.
An absent marker is the normal outcome of each probe (the per-probe
timeouts are swallowed). -/
def checkAccountStatus (page : Page) : String × Option String :=
  if page.notFoundMarker then
    (ScraperStatus.NOT_FOUND, some "Account does not exist")
  else if page.privateMarker then
    (ScraperStatus.PRIVATE, some "Account is private")
  else if containsSub page.url "challenge" || containsSub page.url "login" then
    (ScraperStatus.RATE_LIMITED, some "Rate limited or login required")
  else (ScraperStatus.SUCCESS, none)

/-- scraper.py, InstagramScraper._extract_reels_from_page.  Strategy 1 uses
the intercepted GraphQL payloads when any were captured and their parse is
non-empty; strategy 2 evaluates window._sharedData; strategy 3 scrapes the
DOM.  The two Bools record whether the strategy-2 evaluation and the
strategy-3 DOM scrape were invoked. -/
def extractReelsFromPage (graphqlData : List GraphqlResponse) (page : Page)
    (now : Int) : List Reel × Bool × Bool :=
  let domResult : List Reel × Bool × Bool :=
    (scrapeReelsFromDom now page.domReelLinks, true, true)
  let sharedResult : List Reel × Bool × Bool :=
    match page.sharedData with
    | some sd =>
      let r2 := parseSharedData now sd
      if r2 ≠ [] then (r2, true, false) else domResult
    | none => domResult
  if graphqlData ≠ [] then
    let r1 := parseGraphqlData now graphqlData
    if r1 ≠ [] then (r1, false, false) else sharedResult
  else sharedResult

/-- scraper.py, InstagramScraper._smart_scroll result: the returned reel
count (none only on the `max_scrolls = 0` path, where the Python
`return reel_count` would hit an unbound variable), the number of loop
iterations executed, and the seconds slept inside the loop, in order. -/
structure ScrollResult where
  count : Option Nat
  iters : Nat
  waits : List Rat
deriving DecidableEq

/-- scraper.py, InstagramScraper._smart_scroll loop body.  `heights i` and
`counts i` are the page scroll height and the reel-anchor count observed at
the i-th iteration; `fuel = max_scrolls - scroll_count`; `prev` is
previous_height; `stall` is no_change_count; `lastCount` is the value of
the reel_count variable from the previous iteration. -/
def smartScrollGo (heights counts : Nat → Nat) (target : Nat) :
    Nat → Nat → Nat → Nat → Option Nat → ScrollResult
  | 0, _, _, _, lastCount => ⟨lastCount, 0, []⟩
  | fuel + 1, i, prev, stall, _ =>
    let h := heights i
    let c := counts i
    if c ≥ target then ⟨some c, 1, []⟩
    else if h = prev then
      let stall1 := stall + 1
      let w : Rat := min ((1 / 2) * 2 ^ stall1) 5
      if stall1 ≥ 3 then ⟨some c, 1, [w]⟩
      else
        let r := smartScrollGo heights counts target fuel (i + 1) h stall1 (some c)
        ⟨r.count, r.iters + 1, w :: r.waits⟩
    else
      let r := smartScrollGo heights counts target fuel (i + 1) h 0 (some c)
      ⟨r.count, r.iters + 1, (1 / 2 : Rat) :: r.waits⟩

/-- scraper.py, InstagramScraper._smart_scroll: previous_height starts at
0, scroll_count at 0, no_change_count at 0. -/
def smartScroll (heights counts : Nat → Nat) (target : Nat)
    (maxScrolls : Nat := 50) : ScrollResult :=
  smartScrollGo heights counts target maxScrolls 0 0 0 none

/-- scraper.py, InstagramScraper.scrape_reels after a successful
navigation: classify the account; on a non-SUCCESS status return an empty
list with that status and message, skipping the scroll and the extraction;
otherwise scroll, extract and truncate to the limit.  The page content
revealed by scrolling is absorbed into the page/payload arguments; the Bool
records whether the scroll-and-extract stage ran. -/
def scrapeReels (page : Page) (graphqlData : List GraphqlResponse)
    (limit : Nat) (now : Int) :
    (List Reel × String × Option String) × Bool :=
  let status := (checkAccountStatus page).1
  let message := (checkAccountStatus page).2
  if status ≠ ScraperStatus.SUCCESS then (([], status, message), false)
  else
    let reels := (extractReelsFromPage graphqlData page now).1
    ((reels.take limit, ScraperStatus.SUCCESS, none), true)

/-! # The cached single-item fetch path (ItemFetcher) -/

/-- Payloads stored by the single-item fetch path in the shared cache:
either a fetched reel or a rate-limit flag. -/
inductive CachedData where
  | reel (r : Reel)
  | flag (b : Bool)
deriving DecidableEq

/-- Item-path fetch outcomes (the error taxonomy of the item fetcher). -/
inductive FetchOutcome where
  | ok (r : Reel)
  | rateLimited
  | scrapeFailure (msg : String)
  | invalidInput
deriving DecidableEq

/-- Result of a single-item fetch: outcome, cache after the call, number of
network-client invocations, and backoff sleeps performed. -/
structure FetchResult where
  outcome : FetchOutcome
  cache : CacheMap CachedData
  networkCalls : Nat
  sleeps : List Rat

/-- Modelled from the spec: the bounded-retry attempt loop of the cached
single-item fetch variant.  The repository function that calls
get_cached_scraped_data / set_cached_scraped_data (cache_manager.py lines
152-183 have no caller in the provided sources) is not part of the
sources, so this follows the spec wording: on success store the item and
clear the rate-limit flag; on a rate-limit-signature failure set the flag
and serve the cached item when one exists, else sleep `delay × attempt`
and retry while attempts remain, failing rate-limited when exhausted; any
other failure fails immediately with the underlying message. -/
def fetchAttempts (oracle : Nat → Except String Reel) (now : Rat)
    (itemKey flagKey : String) (itemTtl flagTtl : Int) (baseDelay : Rat) :
    Nat → Nat → CacheMap CachedData → FetchResult
  | 0, _, c => ⟨.rateLimited, c, 0, []⟩
  | fuel + 1, attempt, c =>
    match oracle attempt with
    | .ok r =>
      let c1 := cacheSet c itemKey (.reel r) (some itemTtl) itemTtl now
      let c2 := (cacheDelete c1 flagKey).2
      ⟨.ok r, c2, 1, []⟩
    | .error msg =>
      if isRateLimitError msg then
        let c1 := cacheSet c flagKey (.flag true) (some flagTtl) flagTtl now
        match (cacheGet c1 now itemKey).1 with
        | some (.reel r) => ⟨.ok r, c1, 1, []⟩
        | _ =>
          if fuel = 0 then ⟨.rateLimited, c1, 1, []⟩
          else
            let res :=
              fetchAttempts oracle now itemKey flagKey itemTtl flagTtl
                baseDelay fuel (attempt + 1) c1
            ⟨res.outcome, res.cache, res.networkCalls + 1,
              baseDelay * (attempt : Rat) :: res.sleeps⟩
      else ⟨.scrapeFailure msg, c, 1, []⟩

/-- Modelled from the spec: fetchItem of the cached single-item variant.
Resolve the identifier from the URL path (last non-empty segment, exactly
as scrape_instagram_reel does), build the `item:` and `rateLimit:` keys,
and when a rate-limit flag is active and a cached item exists return the
cached item immediately without any network attempt; otherwise run up to
3 attempts. -/
def fetchItem (path : String) (cache0 : CacheMap CachedData) (now : Rat)
    (oracle : Nat → Except String Reel) (itemTtl flagTtl : Int)
    (baseDelay : Rat) : FetchResult :=
  match extractShortcode path with
  | none => ⟨.invalidInput, cache0, 0, []⟩
  | some id =>
    let itemKey := "item:" ++ id
    let flagKey := "rateLimit:" ++ id
    let flagVal := (cacheGet cache0 now flagKey).1
    let c1 := (cacheGet cache0 now flagKey).2
    let itemVal := (cacheGet c1 now itemKey).1
    let c2 := (cacheGet c1 now itemKey).2
    match flagVal, itemVal with
    | some _, some (.reel r) => ⟨.ok r, c2, 0, []⟩
    | _, _ =>
      fetchAttempts oracle now itemKey flagKey itemTtl flagTtl baseDelay 3 1 c2

/-! # Helper lemmas -/

theorem cacheGet_some_snd {α : Type} (c : CacheMap α) (now : Rat) (key : String)
    (v : α) (h : (cacheGet c now key).1 = some v) : (cacheGet c now key).2 = c := by
  unfold cacheGet at h ⊢
  rcases hf : c.find? (fun p => p.1 == key) with _ | ⟨k, e⟩ <;> simp [hf] at h ⊢
  by_cases he : e.isExpired now <;> simp [he] at h ⊢

/-! # C3 : cache TTL boundary -/

/-- C3: for every key with a stored entry, `get` returns the stored value
whenever `now - createdAt ≤ ttl`, and once `now - createdAt` exceeds `ttl`
it returns none, removes the entry, and a repeated `get` behaves exactly as
on an absent key. -/
theorem cache_ttl_boundary {α : Type} (c : CacheMap α) (now : Rat) (key : String)
    (e : CacheEntry α)
    (hfind : c.find? (fun p => p.1 == key) = some (key, e)) :
    (now - e.created_at ≤ (e.ttl_seconds : Rat) →
      cacheGet c now key = (some e.data, c)) ∧
    ((e.ttl_seconds : Rat) < now - e.created_at →
      (cacheGet c now key).1 = none ∧
      (cacheGet c now key).2.find? (fun p => p.1 == key) = none ∧
      cacheGet (cacheGet c now key).2 now key = (none, (cacheGet c now key).2)) := by
  constructor
  · intro hle
    have hfresh : e.isExpired now = false := by
      simp [CacheEntry.isExpired, not_lt.mpr hle]
    simp [cacheGet, hfind, hfresh]
  · intro hlt
    have hexp : e.isExpired now = true := by
      simp [CacheEntry.isExpired, hlt]
    have hnone : (c.filter (fun p => !(p.1 == key))).find?
        (fun p => p.1 == key) = none := by
      rw [List.find?_eq_none]
      intro x hx
      have hmem := (List.mem_filter.mp hx).2
      simpa using hmem
    refine ⟨?_, ?_, ?_⟩ <;> simp [cacheGet, hfind, hexp, hnone]

/-- Witness for C3 at the concrete scenario of the spec: key "a", TTL 1,
stored at time 0; read at time 1/2 hits, read at time 11/10 misses. -/
theorem cache_ttl_boundary_witness :
    cacheGet [("a", (⟨42, 0, 1⟩ : CacheEntry Nat))] (1 / 2) "a"
      = (some 42, [("a", ⟨42, 0, 1⟩)]) ∧
    (cacheGet [("a", (⟨42, 0, 1⟩ : CacheEntry Nat))] (11 / 10) "a").1 = none := by
  constructor
  · exact (cache_ttl_boundary [("a", ⟨42, 0, 1⟩)] (1 / 2) "a" ⟨42, 0, 1⟩
      (by rfl)).1 (by norm_num)
  · exact ((cache_ttl_boundary [("a", ⟨42, 0, 1⟩)] (11 / 10) "a" ⟨42, 0, 1⟩
      (by rfl)).2 (by norm_num)).1

/-! # C10 : lazy expiry is observable through delete and get_stats -/

/-- C10: an expired but not yet purged entry is invisible to `get` (which
returns none), yet `delete` still returns True for its key and `get_stats`
still counts it both in total_entries and in expired_entries. -/
theorem cache_lazy_expiry {α : Type} (c : CacheMap α) (now : Rat) (key : String)
    (e : CacheEntry α) (defaultTtl : Int)
    (hfind : c.find? (fun p => p.1 == key) = some (key, e))
    (hexp : e.isExpired now = true) :
    (cacheGet c now key).1 = none ∧
    (cacheDelete c key).1 = true ∧
    1 ≤ (cacheStats c now defaultTtl).total_entries ∧
    1 ≤ (cacheStats c now defaultTtl).expired_entries := by
  have hmem : (key, e) ∈ c := List.mem_of_find?_eq_some hfind
  refine ⟨?_, ?_, ?_, ?_⟩
  · simp [cacheGet, hfind, hexp]
  · have : c.any (fun p => p.1 == key) = true := by
      rw [List.any_eq_true]
      exact ⟨(key, e), hmem, by simp⟩
    simp [cacheDelete, this]
  · simpa [cacheStats] using List.length_pos.mpr (List.ne_nil_of_mem hmem)
  · have : 0 < c.countP (fun p => p.2.isExpired now) := by
      rw [List.countP_pos_iff]
      exact ⟨(key, e), hmem, hexp⟩
    simpa [cacheStats] using this

/-- Witness for C10: entry with TTL 10 stored at time 0, observed at time
11 (already expired, not yet purged). -/
theorem cache_lazy_expiry_witness :
    (cacheGet [("k", (⟨37, 0, 10⟩ : CacheEntry Nat))] 11 "k").1 = none ∧
    (cacheDelete [("k", (⟨37, 0, 10⟩ : CacheEntry Nat))] "k").1 = true ∧
    1 ≤ (cacheStats [("k", (⟨37, 0, 10⟩ : CacheEntry Nat))] 11 300).total_entries ∧
    1 ≤ (cacheStats [("k", (⟨37, 0, 10⟩ : CacheEntry Nat))] 11 300).expired_entries :=
  cache_lazy_expiry [("k", (⟨37, 0, 10⟩ : CacheEntry Nat))] 11 "k" ⟨37, 0, 10⟩ 300
    (by rfl) (by simp [CacheEntry.isExpired]; norm_num)

/-! # C5 : proxy non-repetition -/

/-- C5: with at least 2 distinct proxies available, get_next_proxy returns
a pool member different from `_last_proxy` and records it as the new
`_last_proxy`, for every choice the random generator can make; with exactly
one proxy it returns that proxy; with an empty pool it returns none. -/
theorem proxy_non_repetition (pool : List String) (last : Option String)
    (k : Nat) (hnd : pool.Nodup) :
    (2 ≤ pool.length →
      ∃ p, getNextProxy pool last k = (some p, some p) ∧
        p ∈ pool ∧ some p ≠ last) ∧
    (∀ p, pool = [p] → getNextProxy pool last k = (some p, some p)) ∧
    (pool = [] → getNextProxy pool last k = (none, last)) := by
  refine ⟨?_, ?_, ?_⟩
  · intro hlen
    have hne : pool.filter (fun q => decide (some q ≠ last)) ≠ [] := by
      intro hnil
      have hall := List.filter_eq_nil_iff.mp hnil
      rcases pool with _ | ⟨a, _ | ⟨b, t⟩⟩
      · simp at hlen
      · norm_num at hlen
      · have h1 := List.nodup_cons.mp hnd
        have ha : some a = last := by simpa using hall a (by simp)
        have hb : some b = last := by simpa using hall b (by simp)
        have hab : a = b := Option.some_injective _ (ha.trans hb.symm)
        exact h1.1 (by rw [hab]; exact List.mem_cons_self b t)
    have hempty : (pool.filter (fun q => decide (some q ≠ last))).isEmpty = false := by
      simpa [List.isEmpty_iff] using hne
    have hpos : 0 < (pool.filter (fun q => decide (some q ≠ last))).length :=
      List.length_pos.mpr hne
    have hidx : k % (pool.filter (fun q => decide (some q ≠ last))).length <
        (pool.filter (fun q => decide (some q ≠ last))).length :=
      Nat.mod_lt _ hpos
    have hmem : (pool.filter (fun q => decide (some q ≠ last))).getD
        (k % (pool.filter (fun q => decide (some q ≠ last))).length) "" ∈
        pool.filter (fun q => decide (some q ≠ last)) := by
      rw [List.getD_eq_getElem _ "" hidx]
      exact List.getElem_mem hidx
    have hprop := List.mem_filter.mp hmem
    have hnotall : ¬ ∀ a ∈ pool, some a = last := by
      intro hall2
      exact hne (List.filter_eq_nil_iff.mpr fun a ha => by simpa using hall2 a ha)
    refine ⟨_, ?_, hprop.1, by simpa using hprop.2⟩
    simp [getNextProxy, hnotall]
  · intro p hp
    subst hp
    by_cases h : last = some p
    · subst h
      simp [getNextProxy, Nat.mod_one]
    · have h2 : some p ≠ last := fun he => h he.symm
      simp [getNextProxy, h2, Nat.mod_one]
  · intro hp
    subst hp
    rfl

/-- Witness for C5: pool of three distinct proxies, `_last_proxy` = "b",
random draw index 5. -/
theorem proxy_non_repetition_witness :
    2 ≤ (["a", "b", "c"] : List String).length ∧
    ∃ p, getNextProxy ["a", "b", "c"] (some "b") 5 = (some p, some p) ∧
      p ∈ ["a", "b", "c"] ∧ some p ≠ some "b" :=
  ⟨by decide,
    (proxy_non_repetition ["a", "b", "c"] (some "b") 5 (by decide)).1 (by decide)⟩

/-! # C6 : proxy eviction is permanent -/

theorem getNextProxy_mem (pool : List String) (last : Option String) (k : Nat)
    (p : String) (h : (getNextProxy pool last k).1 = some p) : p ∈ pool := by
  unfold getNextProxy at h
  set cand0 := pool.filter (fun q => decide (some q ≠ last)) with hc0
  by_cases h0 : cand0.isEmpty
  · simp only [h0, if_true, ite_true] at h
    by_cases h1 : pool.isEmpty
    · simp [h1] at h
    · simp only [h1, Bool.false_eq_true, if_false, ite_false] at h
      have hpos : 0 < pool.length :=
        List.length_pos.mpr (by simpa [List.isEmpty_iff] using h1)
      have hidx : k % pool.length < pool.length := Nat.mod_lt _ hpos
      have hmem : pool.getD (k % pool.length) "" ∈ pool := by
        rw [List.getD_eq_getElem pool "" hidx]
        exact List.getElem_mem hidx
      simpa [← Option.some_injective _ (by simpa using h)] using hmem
  · simp only [h0, Bool.false_eq_true, if_false, ite_false] at h
    have hne : cand0 ≠ [] := by simpa [List.isEmpty_iff] using h0
    have hpos : 0 < cand0.length := List.length_pos.mpr hne
    have hidx : k % cand0.length < cand0.length := Nat.mod_lt _ hpos
    have hmem : cand0.getD (k % cand0.length) "" ∈ cand0 := by
      rw [List.getD_eq_getElem cand0 "" hidx]
      exact List.getElem_mem hidx
    have : cand0.getD (k % cand0.length) "" = p := by simpa using h
    exact (List.mem_filter.mp (hc0 ▸ (this ▸ hmem))).1

theorem stepPool_pool_subset (s : PoolState) (op : PoolOp) :
    (stepPool s op).1.pool ⊆ s.pool := by
  cases op with
  | next k => exact fun x hx => hx
  | evict p =>
    show (removeBadProxy s.pool s.lastUsed p).1 ⊆ s.pool
    unfold removeBadProxy
    by_cases h : p ∈ s.pool
    · simpa [h] using List.erase_subset p s.pool
    · simp [h]

theorem stepPool_no_return (s : PoolState) (op : PoolOp) (P : String)
    (hP : P ∉ s.pool) :
    P ∉ (stepPool s op).1.pool ∧ (stepPool s op).2 ≠ some P := by
  constructor
  · exact fun hmem => hP (stepPool_pool_subset s op hmem)
  · cases op with
    | next k =>
      intro hout
      exact hP (getNextProxy_mem s.pool s.lastUsed k P hout)
    | evict p => simp [stepPool]

theorem runPool_pool_subset (s : PoolState) (ops : List PoolOp) :
    (runPool s ops).1.pool ⊆ s.pool := by
  induction ops generalizing s with
  | nil => exact fun x hx => hx
  | cons op ops ih =>
    exact fun x hx =>
      stepPool_pool_subset s op (ih (stepPool s op).1 hx)

theorem runPool_never_returns (s : PoolState) (P : String) (ops : List PoolOp)
    (hP : P ∉ s.pool) :
    P ∉ (runPool s ops).1.pool ∧ ∀ o ∈ (runPool s ops).2, o ≠ some P := by
  induction ops generalizing s with
  | nil => exact ⟨hP, by simp [runPool]⟩
  | cons op ops ih =>
    have hstep := stepPool_no_return s op P hP
    have hrest := ih (stepPool s op).1 hstep.1
    refine ⟨hrest.1, ?_⟩
    intro o ho
    rcases List.mem_cons.mp ho with h | h
    · exact h ▸ hstep.2
    · exact hrest.2 o h

/-- C6: evicting proxy P removes it from the pool, clears `_last_proxy`
when it pointed at P, and afterwards the pool only shrinks and no sequence
of further next/evict operations ever returns P.  The hypotheses state the
invariants of every reachable pool state: the pool (seeded with distinct
endpoints and only ever shrunk) has no duplicates, and `_last_proxy` always
points into the pool when set. -/
theorem proxy_eviction_permanent (pool : List String) (last : Option String)
    (P : String) (ops : List PoolOp) (hnd : pool.Nodup)
    (hlast : ∀ q, last = some q → q ∈ pool) :
    P ∉ (stepPool ⟨pool, last⟩ (.evict P)).1.pool ∧
    (last = some P → (stepPool ⟨pool, last⟩ (.evict P)).1.lastUsed = none) ∧
    (runPool (stepPool ⟨pool, last⟩ (.evict P)).1 ops).1.pool
      ⊆ (stepPool ⟨pool, last⟩ (.evict P)).1.pool ∧
    P ∉ (runPool (stepPool ⟨pool, last⟩ (.evict P)).1 ops).1.pool ∧
    ∀ o ∈ (runPool (stepPool ⟨pool, last⟩ (.evict P)).1 ops).2, o ≠ some P := by
  have hout : P ∉ (stepPool ⟨pool, last⟩ (.evict P)).1.pool := by
    show P ∉ (removeBadProxy pool last P).1
    unfold removeBadProxy
    by_cases h : P ∈ pool
    · simp only [h, if_true, ite_true]
      intro hmem
      exact ((List.Nodup.mem_erase_iff hnd).mp hmem).1 rfl
    · simp [h]
  have hrun := runPool_never_returns (stepPool ⟨pool, last⟩ (.evict P)).1 P ops hout
  refine ⟨hout, ?_, runPool_pool_subset _ ops, hrun.1, hrun.2⟩
  intro hlastP
  show (removeBadProxy pool last P).2 = none
  have hPmem : P ∈ pool := hlast P hlastP
  simp [removeBadProxy, hPmem, hlastP]

/-- Witness for C6: evict "a" from the two-proxy pool, then run two next
calls; "a" is gone from the pool and is never returned. -/
theorem proxy_eviction_permanent_witness :
    "a" ∉ (stepPool ⟨["a", "b"], none⟩ (.evict "a")).1.pool ∧
    "a" ∉ (runPool (stepPool ⟨["a", "b"], none⟩ (.evict "a")).1
      [.next 0, .next 1]).1.pool :=
  ⟨(proxy_eviction_permanent ["a", "b"] none "a" [.next 0, .next 1]
      (by decide) (by intro q h; cases h)).1,
    (proxy_eviction_permanent ["a", "b"] none "a" [.next 0, .next 1]
      (by decide) (by intro q h; cases h)).2.2.2.1⟩

/-! # C2 : failure handling in the scrape_instagram_reel proxy loop -/

/-- Concrete reel used by the scrape-loop counterexample. -/
def sampleReel : Reel :=
  ⟨"B", "https://www.instagram.com/reel/B/", none, none, none, 0,
    none, none, none⟩

/-- C2 counterexample: the first proxy fails with "connection refused",
which matches no rate-limit signature, yet scrape_instagram_reel does not
fail with a scrape-failure error carrying that message: it evicts the
proxy, attempts the second proxy and returns its successful result — the
attempt log shows both proxies were tried. -/
theorem item_fetch_fail_fast_counterexample :
    isRateLimitError "connection refused" = false ∧
    scrapeInstagramReel
      (fun p => if p = "p1" then .error "connection refused" else .ok sampleReel)
      2 ["p1", "p2"] = (.ok sampleReel, ["p1", "p2"]) := by
  constructor
  · rfl
  · rfl

/-- C2 amended: on a fetch failure whose message matches no rate-limit
signature, the loop evicts the failing proxy and continues with the next
untried proxy — exactly the handling of rate-limit failures — instead of
failing immediately; only pool exhaustion ends the call. -/
theorem item_fetch_nonratelimit_continues
    (oracle : String → Except String Reel) (p msg : String)
    (rest pool tried att : List String)
    (hfail : oracle p = .error msg) (hnotrl : isRateLimitError msg = false)
    (hnew : p ∉ tried) :
    tryProxies oracle (p :: rest) pool tried att =
      tryProxies oracle rest (removeBadProxy pool none p).1 (p :: tried)
        (att ++ [p]) := by
  simp [tryProxies, hnew, hfail, hnotrl]

/-- Witness for the amended C2: a two-proxy pool whose first proxy fails
with a non-rate-limit message. -/
theorem item_fetch_nonratelimit_continues_witness :
    tryProxies (fun _ => .error "boom") ["q1", "q2"] ["q1", "q2"] [] [] =
      tryProxies (fun _ => .error "boom") ["q2"]
        (removeBadProxy ["q1", "q2"] none "q1").1 ["q1"] ["q1"] :=
  item_fetch_nonratelimit_continues (fun _ => .error "boom") "q1" "boom"
    ["q2"] ["q1", "q2"] [] [] rfl (by rfl) (by simp)

/-! # C4 : extraction strategy priority -/

theorem extract_graphql_wins_aux (g : List GraphqlResponse) (page : Page)
    (now : Int) (h : parseGraphqlData now g ≠ []) :
    extractReelsFromPage g page now = (parseGraphqlData now g, false, false) := by
  have hg : g ≠ [] := by
    intro h0
    exact h (by simp [h0, parseGraphqlData])
  simp [extractReelsFromPage, hg, h]

/-- C4: when parsing the intercepted GraphQL payloads yields at least one
reel, the extraction result is exactly that parse, and neither the
_sharedData strategy nor the DOM-fallback strategy is invoked. -/
theorem extraction_priority (g : List GraphqlResponse) (page : Page)
    (now : Int) (h : parseGraphqlData now g ≠ []) :
    extractReelsFromPage g page now = (parseGraphqlData now g, false, false) :=
  extract_graphql_wins_aux g page now h

/-- A video node with a valid shortcode. -/
def nodeA : MediaNode :=
  ⟨some "AAA", true, some "v.mp4", some "t.jpg", none, some 5,
    [some "hello"], some 1, some 2, some 3⟩

/-- One intercepted GraphQL response containing nodeA. -/
def gOne : List GraphqlResponse := [⟨some ⟨some ⟨some ⟨[nodeA]⟩⟩⟩⟩]

/-- A page that also offers _sharedData content and DOM reel links, to
show they are ignored when strategy 1 succeeds. -/
def pageRich : Page :=
  ⟨false, false, "https://www.instagram.com/pubuser/reels/",
    some ⟨some [⟨some ⟨some ⟨[nodeA]⟩⟩⟩]⟩,
    ["https://www.instagram.com/reel/ZZZ/"]⟩

/-- Witness for C4: even with _sharedData and DOM links available, the
GraphQL parse wins and the fallback flags stay false. -/
theorem extraction_priority_witness :
    extractReelsFromPage gOne pageRich 0 = (parseGraphqlData 0 gOne, false, false) :=
  extraction_priority gOne pageRich 0 (by decide)

/-! # C8 : classification precedence and short-circuit -/

/-- C8: a page matching the not-found markers classifies NOT_FOUND with
message "Account does not exist" regardless of the private markers, and
the feed crawl then returns an empty item list with that status and
message for every intercepted payload and limit, without running the
scroll-and-extract stage. -/
theorem classification_precedence (page : Page) (g : List GraphqlResponse)
    (limit : Nat) (now : Int) (h : page.notFoundMarker = true) :
    checkAccountStatus page =
      (ScraperStatus.NOT_FOUND, some "Account does not exist") ∧
    scrapeReels page g limit now =
      (([], ScraperStatus.NOT_FOUND, some "Account does not exist"), false) := by
  have h1 : checkAccountStatus page =
      (ScraperStatus.NOT_FOUND, some "Account does not exist") := by
    simp [checkAccountStatus, h]
  refine ⟨h1, ?_⟩
  have hne : ScraperStatus.NOT_FOUND ≠ ScraperStatus.SUCCESS := by decide
  simp [scrapeReels, h1, hne]

/-- The page of the spec scenario: both the not-found and the private
markers match. -/
def pageNoUser : Page :=
  ⟨true, true, "https://www.instagram.com/nouser/reels/", none, []⟩

/-- Witness for C8 at the spec scenario fetchUserFeed("nouser", 10). -/
theorem classification_precedence_witness :
    checkAccountStatus pageNoUser =
      (ScraperStatus.NOT_FOUND, some "Account does not exist") ∧
    scrapeReels pageNoUser [] 10 0 =
      (([], ScraperStatus.NOT_FOUND, some "Account does not exist"), false) :=
  classification_precedence pageNoUser [] 10 0 rfl

/-! # C7 : smart-scroll termination -/

theorem smartScrollGo_stall (heights counts : Nat → Nat)
    (target f f1 i prev stall : Nat) (lc : Option Nat) (hf : f = f1 + 1)
    (hc0 : ¬ counts i ≥ target) (hh : heights i = prev)
    (hst : ¬ stall + 1 ≥ 3) :
    smartScrollGo heights counts target f i prev stall lc =
      ⟨(smartScrollGo heights counts target f1 (i + 1) (heights i)
          (stall + 1) (some (counts i))).count,
        (smartScrollGo heights counts target f1 (i + 1) (heights i)
          (stall + 1) (some (counts i))).iters + 1,
        min ((1 / 2) * 2 ^ (stall + 1)) 5 ::
          (smartScrollGo heights counts target f1 (i + 1) (heights i)
            (stall + 1) (some (counts i))).waits⟩ := by
  subst hf
  conv_lhs => rw [smartScrollGo]
  simp only [hh, if_neg hc0, if_pos rfl, if_neg hst, ite_true]

theorem smartScrollGo_stall3 (heights counts : Nat → Nat)
    (target f f1 i prev stall : Nat) (lc : Option Nat) (hf : f = f1 + 1)
    (hc0 : ¬ counts i ≥ target) (hh : heights i = prev)
    (hst : stall + 1 ≥ 3) :
    smartScrollGo heights counts target f i prev stall lc =
      ⟨some (counts i), 1, [min ((1 / 2) * 2 ^ (stall + 1)) 5]⟩ := by
  subst hf
  conv_lhs => rw [smartScrollGo]
  simp only [hh, if_neg hc0, if_pos rfl, if_pos hst, ite_true]

theorem smartScrollGo_change (heights counts : Nat → Nat)
    (target f f1 i prev stall : Nat) (lc : Option Nat) (hf : f = f1 + 1)
    (hc0 : ¬ counts i ≥ target) (hh : heights i ≠ prev) :
    smartScrollGo heights counts target f i prev stall lc =
      ⟨(smartScrollGo heights counts target f1 (i + 1) (heights i) 0
          (some (counts i))).count,
        (smartScrollGo heights counts target f1 (i + 1) (heights i) 0
          (some (counts i))).iters + 1,
        (1 / 2 : Rat) ::
          (smartScrollGo heights counts target f1 (i + 1) (heights i) 0
            (some (counts i))).waits⟩ := by
  subst hf
  conv_lhs => rw [smartScrollGo]
  simp only [if_neg hc0, if_neg hh]

/-- C7 counterexample: the loop stalls on the page scroll height, not on
the item count.  On a page whose item count never increases (constantly 0,
below the target 1) but whose height grows at every scroll, the loop runs
all 6 of its maxIterations — although maxIterations = 6 ≥ 4 — instead of
stopping after the initial iteration plus 3 stalls. -/
theorem scroll_termination_counterexample :
    (smartScroll (fun i => i + 1) (fun _ => 0) 1 6).iters = 6 ∧
    (smartScroll (fun i => i + 1) (fun _ => 0) 1 6).count = some 0 := by
  constructor
  · rfl
  · rfl

/-- C7 amended: on a page whose scroll height is the same at every
iteration (and whose item count stays below the target), the loop with
maxIterations ≥ 4 stops with the initial iteration plus at most 3 stall
iterations — 4 iterations in total (3 when the constant height is 0, since
previous_height starts at 0) — returning the last observed count, with the
stall waits min(0.5·2^stall, 5) for stall = 1, 2, 3. -/
theorem scroll_stall_termination (heights counts : Nat → Nat)
    (H target maxScrolls : Nat) (hH : ∀ i, heights i = H)
    (hc : ∀ i, counts i < target) (hm : 4 ≤ maxScrolls) :
    smartScroll heights counts target maxScrolls =
      if H = 0 then ⟨some (counts 2), 3, [1, 2, 4]⟩
      else ⟨some (counts 3), 4, [1 / 2, 1, 2, 4]⟩ := by
  obtain ⟨m, rfl⟩ : ∃ m, maxScrolls = m + 4 := ⟨maxScrolls - 4, by omega⟩
  have hcf : ∀ i, ¬ counts i ≥ target := fun i => by have := hc i; omega
  show smartScrollGo heights counts target (m + 4) 0 0 0 none = _
  by_cases hH0 : H = 0
  · subst hH0
    rw [if_pos rfl]
    rw [smartScrollGo_stall heights counts target (m + 4) (m + 3) 0 0 0 none
      (by omega) (hcf 0) (hH 0) (by omega)]
    simp only [hH]
    rw [smartScrollGo_stall heights counts target (m + 3) (m + 2) 1 0 1
      (some (counts 0)) (by omega) (hcf 1) (hH 1) (by omega)]
    simp only [hH]
    rw [smartScrollGo_stall3 heights counts target (m + 2) (m + 1) 2 0 2
      (some (counts 1)) (by omega) (hcf 2) (hH 2) (by omega)]
    norm_num [min_def]
  · rw [if_neg hH0]
    rw [smartScrollGo_change heights counts target (m + 4) (m + 3) 0 0 0 none
      (by omega) (hcf 0) (by rw [hH 0]; omega)]
    simp only [hH]
    rw [smartScrollGo_stall heights counts target (m + 3) (m + 2) 1 H 0
      (some (counts 0)) (by omega) (hcf 1) (hH 1) (by omega)]
    simp only [hH]
    rw [smartScrollGo_stall heights counts target (m + 2) (m + 1) 2 H 1
      (some (counts 1)) (by omega) (hcf 2) (hH 2) (by omega)]
    simp only [hH]
    rw [smartScrollGo_stall3 heights counts target (m + 1) m 3 H 2
      (some (counts 2)) (by omega) (hcf 3) (hH 3) (by omega)]
    norm_num [min_def]

/-- Witness for the amended C7: constant height 10, constant count 0,
target 1, the default maxIterations 50. -/
theorem scroll_stall_termination_witness :
    smartScroll (fun _ => 10) (fun _ => 0) 1 50 =
      ⟨some 0, 4, [1 / 2, 1, 2, 4]⟩ := by
  have h := scroll_stall_termination (fun _ => 10) (fun _ => 0) 10 1 50
    (fun _ => rfl) (fun _ => Nat.one_pos) (by norm_num)
  simpa using h

/-! # C9 : feed truncation, discovery order, id presence -/

/-- A node carries a usable identifier: a present, non-empty shortcode
(Python `if not shortcode` drops both None and ""). -/
def hasValidShortcode (n : MediaNode) : Bool :=
  match n.shortcode with
  | none => false
  | some s => decide (s ≠ "")

/-- The video nodes of the intercepted payloads, in discovery order. -/
def videoNodesOf (responses : List GraphqlResponse) : List MediaNode :=
  responses.flatMap (fun resp =>
    match resp.data with
    | none => []
    | some d =>
      match d.user with
      | none => []
      | some u =>
        match u.timeline with
        | none => []
        | some tl => tl.edges.filter (fun n => n.is_video))

theorem parseMediaNode_isSome (now : Int) (n : MediaNode) :
    (parseMediaNode now n).isSome = hasValidShortcode n := by
  rcases hn : n.shortcode with _ | sc
  · simp [parseMediaNode, hasValidShortcode, hn]
  · by_cases hsc : sc = "" <;>
      simp [parseMediaNode, hasValidShortcode, hn, hsc]

theorem parseMediaNode_id (now : Int) (n : MediaNode) (r : Reel)
    (h : parseMediaNode now n = some r) : r.id ≠ "" := by
  rcases hn : n.shortcode with _ | sc
  · simp [parseMediaNode, hn] at h
  · by_cases hsc : sc = ""
    · simp [parseMediaNode, hn, hsc] at h
    · simp only [parseMediaNode, hn, if_neg hsc, Option.some.injEq] at h
      rw [← h]
      simpa using hsc

theorem length_filterMap_parse (now : Int) (nodes : List MediaNode) :
    (nodes.filterMap (parseMediaNode now)).length =
      nodes.countP hasValidShortcode := by
  induction nodes with
  | nil => rfl
  | cons n t ih =>
    have hiso := parseMediaNode_isSome now n
    rcases hp : parseMediaNode now n with _ | r
    · rw [hp] at hiso
      simp [List.filterMap_cons, List.countP_cons, hp, ← hiso, ih]
    · rw [hp] at hiso
      simp [List.filterMap_cons, List.countP_cons, hp, ← hiso, ih]

theorem parseGraphqlData_characterization (now : Int)
    (g : List GraphqlResponse) :
    parseGraphqlData now g = (videoNodesOf g).filterMap (parseMediaNode now) := by
  induction g with
  | nil => rfl
  | cons resp rest ih =>
    have hfe : ∀ edges : List MediaNode,
        edges.filterMap
            (fun n => if n.is_video then parseMediaNode now n else none) =
          (edges.filter (fun n => n.is_video)).filterMap (parseMediaNode now) := by
      intro edges
      induction edges with
      | nil => rfl
      | cons e t ihe =>
        by_cases hv : e.is_video <;>
          simp [List.filterMap_cons, List.filter_cons, hv, ihe]
    simp only [parseGraphqlData, videoNodesOf] at ih ⊢
    rw [List.flatMap_cons, List.flatMap_cons, List.filterMap_append, ← ih]
    congr 1
    rcases resp with ⟨_ | d⟩
    · rfl
    · rcases d with ⟨_ | u⟩
      · rfl
      · rcases u with ⟨_ | tl⟩
        · rfl
        · exact hfe tl.edges

/-- C9: for a successfully classified crawl whose intercepted payloads
hold N video nodes with valid shortcodes and N exceeds the limit, the
result carries status SUCCESS and exactly `limit` reels — the first
`limit` parsed reels in discovery order — each with a non-empty id, while
nodes without a valid shortcode are dropped by the parse and never
emitted. -/
theorem feed_truncation_order_ids (page : Page) (g : List GraphqlResponse)
    (limit N : Nat) (now : Int)
    (hstatus : checkAccountStatus page = (ScraperStatus.SUCCESS, none))
    (hN : (videoNodesOf g).countP hasValidShortcode = N) (hNL : limit < N) :
    (scrapeReels page g limit now).1.2.1 = ScraperStatus.SUCCESS ∧
    (scrapeReels page g limit now).1.1.length = limit ∧
    (scrapeReels page g limit now).1.1 = (parseGraphqlData now g).take limit ∧
    parseGraphqlData now g = (videoNodesOf g).filterMap (parseMediaNode now) ∧
    (∀ r ∈ (scrapeReels page g limit now).1.1, r.id ≠ "") ∧
    (∀ n ∈ videoNodesOf g, hasValidShortcode n = false →
      parseMediaNode now n = none) := by
  have hchar := parseGraphqlData_characterization now g
  have hlen : (parseGraphqlData now g).length = N := by
    rw [hchar, length_filterMap_parse, hN]
  have hne : parseGraphqlData now g ≠ [] := by
    intro h0
    rw [h0] at hlen
    simp only [List.length_nil] at hlen
    omega
  have hext := extract_graphql_wins_aux g page now hne
  have hrun : scrapeReels page g limit now =
      (((parseGraphqlData now g).take limit, ScraperStatus.SUCCESS, none),
        true) := by
    simp [scrapeReels, hstatus, hext]
  refine ⟨by rw [hrun], ?_, by rw [hrun], hchar, ?_, ?_⟩
  · rw [hrun]
    simp only [List.length_take, hlen]
    omega
  · intro r hr
    rw [hrun] at hr
    simp only at hr
    have hr2 : r ∈ parseGraphqlData now g := List.take_subset _ _ hr
    rw [hchar] at hr2
    obtain ⟨n, hn, hpn⟩ := List.mem_filterMap.mp hr2
    exact parseMediaNode_id now n r hpn
  · intro n hn hval
    rcases hp : parseMediaNode now n with _ | r
    · rfl
    · have hiso := parseMediaNode_isSome now n
      rw [hp, hval] at hiso
      simp at hiso

/-- A video node with only a shortcode. -/
def mkVidNode (s : String) : MediaNode :=
  ⟨some s, true, none, none, none, none, [], none, none, none⟩

/-- One intercepted payload with 7 valid video nodes. -/
def gSeven : List GraphqlResponse :=
  [⟨some ⟨some ⟨some ⟨[mkVidNode "A", mkVidNode "B", mkVidNode "C",
    mkVidNode "D", mkVidNode "E", mkVidNode "F", mkVidNode "G"]⟩⟩⟩⟩]

/-- A cleanly classified public profile page. -/
def pagePub : Page :=
  ⟨false, false, "https://www.instagram.com/pubuser/reels/", none, []⟩

/-- Witness for C9 at the spec scenario fetchUserFeed("pubuser", 5) with 7
intercepted video nodes. -/
theorem feed_truncation_order_ids_witness :
    (scrapeReels pagePub gSeven 5 0).1.1.length = 5 ∧
    (scrapeReels pagePub gSeven 5 0).1.2.1 = ScraperStatus.SUCCESS :=
  ⟨(feed_truncation_order_ids pagePub gSeven 5 7 0 (by rfl) (by rfl)
      (by omega)).2.1,
    (feed_truncation_order_ids pagePub gSeven 5 7 0 (by rfl) (by rfl)
      (by omega)).1⟩

/-! # C1 : serve-stale under an active rate-limit flag -/

/-- C1 (spec-modelled): when the identifier resolved from the URL has an
active (unexpired) rate-limit flag and a cached item, fetchItem returns
the cached item immediately — zero network-client invocations and no
backoff sleeps — for every network oracle. -/
theorem fetchItem_serve_stale (path id : String)
    (cache0 : CacheMap CachedData) (now : Rat)
    (oracle : Nat → Except String Reel) (itemTtl flagTtl : Int)
    (baseDelay : Rat) (r : Reel)
    (hid : extractShortcode path = some id)
    (hflag : ((cacheGet cache0 now ("rateLimit:" ++ id)).1).isSome = true)
    (hitem : (cacheGet cache0 now ("item:" ++ id)).1 = some (.reel r)) :
    (fetchItem path cache0 now oracle itemTtl flagTtl baseDelay).outcome
      = .ok r ∧
    (fetchItem path cache0 now oracle itemTtl flagTtl baseDelay).networkCalls
      = 0 ∧
    (fetchItem path cache0 now oracle itemTtl flagTtl baseDelay).sleeps
      = [] := by
  obtain ⟨f, hf⟩ := Option.isSome_iff_exists.mp hflag
  have hsnd : (cacheGet cache0 now ("rateLimit:" ++ id)).2 = cache0 :=
    cacheGet_some_snd cache0 now ("rateLimit:" ++ id) f hf
  simp only [fetchItem, hid, hsnd, hf, hitem]
  simp

/-- The cached reel of the serve-stale witness. -/
def reelC : Reel :=
  ⟨"ABC", "https://www.instagram.com/reel/ABC/", none, none, none, 7,
    none, none, none⟩

/-- A cache holding the item and an active rate-limit flag for id ABC. -/
def cacheServeStale : CacheMap CachedData :=
  [("item:ABC", ⟨.reel reelC, 0, 300⟩), ("rateLimit:ABC", ⟨.flag true, 0, 60⟩)]

/-- Witness for C1: both entries were stored at time 0 and are read at
time 1, well inside both TTLs; the network oracle always fails, which is
irrelevant because it is never called. -/
theorem fetchItem_serve_stale_witness :
    (fetchItem "/reel/ABC/" cacheServeStale 1 (fun _ => .error "boom")
      300 60 5).outcome = .ok reelC ∧
    (fetchItem "/reel/ABC/" cacheServeStale 1 (fun _ => .error "boom")
      300 60 5).networkCalls = 0 ∧
    (fetchItem "/reel/ABC/" cacheServeStale 1 (fun _ => .error "boom")
      300 60 5).sleeps = [] :=
  fetchItem_serve_stale "/reel/ABC/" "ABC" cacheServeStale 1
    (fun _ => .error "boom") 300 60 5 reelC (by rfl)
    (by
      rw [show ("rateLimit:" ++ "ABC" : String) = "rateLimit:ABC" from rfl]
      norm_num [cacheGet, cacheServeStale, CacheEntry.isExpired, List.find?,
        show ("item:ABC" == "rateLimit:ABC") = false from rfl,
        show ("rateLimit:ABC" == "rateLimit:ABC") = true from rfl])
    (by
      rw [show ("item:" ++ "ABC" : String) = "item:ABC" from rfl]
      norm_num [cacheGet, cacheServeStale, CacheEntry.isExpired, List.find?,
        show ("item:ABC" == "item:ABC") = true from rfl])
